import Mathlib

/-!
Verification of the dataset ingestion engine of `DatabaseConnection.py`
(class `DatabaseConnection`): the coordinator `addDataset`, the registrar
`__addDatasetEntry`, the metadata loader `__addMetaDataset` and the
transaction loader `__addPurchasesDataset`.

The embedding models a parsed pandas frame as an ordered column list plus a
list of rows of optional string cells (a `none` cell is pandas NaN/null).
The store-side effects of one ingestion call (row inserts, bulk
`copy_from` loads, `session.commit`, log lines, schema reflection) are
modelled as an explicit event trace, and durability as a fold that buffers
write events until a commit event moves them to the committed list.
-/

namespace Ingestion

/-- A cell of a parsed CSV frame: `none` is a pandas null (NaN). -/
abbrev Cell := Option String

/-- A pandas `DataFrame` as produced by `pd.read_csv`: ordered column
names plus rows of cells (each row positionally parallel to `cols`). -/
structure DataFrame where
  cols : List String
  rows : List (List Cell)
  deriving DecidableEq, Repr

/-- Cell of row `r` (laid out following `cols`) at the column named `c`;
`none` when the column is absent. -/
def getCell (cols : List String) (r : List Cell) (c : String) : Cell :=
  match cols.findIdx? (fun x => x = c) with
  | some i => r.getD i none
  | none => none

/-- `df[c] = v` in pandas: overwrite the column in place when it exists,
otherwise append it on the right; every row gets cell `v`. -/
def setCol (df : DataFrame) (c : String) (v : Cell) : DataFrame :=
  if c ∈ df.cols then
    ⟨df.cols, df.rows.map (fun r => r.set (df.cols.findIdx (fun x => x = c)) v)⟩
  else
    ⟨df.cols ++ [c], df.rows.map (fun r => r ++ [v])⟩

/-- `df.rename(columns=\x7bold: new\x7d)`: rename a column, keeping order. -/
def renameCol (old new : String) (cols : List String) : List String :=
  cols.map (fun c => if c = old then new else c)

/-- `drop_duplicates(subset=..., keep="first")` generalised: keep a row
only when its key (under `f`) has not been seen before (in `seen` or in an
earlier kept row). -/
def dedupBy (f : List Cell → List Cell) : List (List Cell) → List (List Cell) → List (List Cell)
  | [], _ => []
  | r :: rs, seen =>
    if f r ∈ seen then dedupBy f rs seen
    else r :: dedupBy f rs (f r :: seen)

/-- The identity frame built at lines 123-124 of `__addMetaDataset`:
`df_csv[[kind_id]].copy()` with a constant `dataset_name` column attached.
No deduplication is performed. -/
def identityFrame (df : DataFrame) (kind ds : String) : DataFrame :=
  ⟨[kind ++ "_id", "dataset_name"],
   df.rows.map (fun r => [getCell df.cols r (kind ++ "_id"), some ds])⟩

/-- One attribute frame of the loop at lines 132-151 of `__addMetaDataset`:
columns `kind_id, dataset_name, attribute, value, type`, with the constant
type tag 0, after `dropna(how="any", axis=0)`. -/
def attributeFrame (df : DataFrame) (kind ds attr : String) : DataFrame :=
  ⟨[kind ++ "_id", "dataset_name", "attribute", "value", "type"],
   (df.rows.map (fun r =>
      [getCell df.cols r (kind ++ "_id"), some ds, some attr,
       getCell df.cols r attr, some "0"])).filter
     (fun r => r.all (fun cell => cell.isSome))⟩

/-- Composite key of lines 184-185: the values of the row at
`dataset_name, customer_id, article_id, timestamp`. -/
def purchaseKey (cols : List String) (r : List Cell) : List Cell :=
  ["dataset_name", "customer_id", "article_id", "timestamp"].map (getCell cols r)

/-- The purchase frame right before deduplication: `dataset_name` attached
(line 179), then `t_dat` renamed to `timestamp` (line 181). -/
def purchaseAttached (df : DataFrame) (ds : String) : DataFrame :=
  let df1 := setCol df "dataset_name" (some ds)
  ⟨renameCol "t_dat" "timestamp" df1.cols, df1.rows⟩

/-- The purchase frame bulk-loaded at line 191: the attached frame after
`drop_duplicates(subset=[dataset_name, customer_id, article_id, timestamp])`
keeping first occurrences (lines 184-185). -/
def purchaseFrame (df : DataFrame) (ds : String) : DataFrame :=
  let dfa := purchaseAttached df ds
  ⟨dfa.cols, dedupBy (purchaseKey dfa.cols) dfa.rows []⟩

/-- The elif chain at lines 166-177 of `__addPurchasesDataset`: the first
required purchase column absent from the header, if any. -/
def missingPurchaseCol (cols : List String) : Option String :=
  if "customer_id" ∉ cols then some "customer_id"
  else if "article_id" ∉ cols then some "article_id"
  else if "price" ∉ cols then some "price"
  else if "t_dat" ∉ cols then some "t_dat"
  else none

/-- One observable store-side action of an ingestion call. -/
inductive Effect where
  /-- `self.meta_data.reflect()` (schema reflection). -/
  | reflect : Effect
  /-- `Logger.log(msg)`. -/
  | log : String → Effect
  /-- `Logger.logError(msg)`. -/
  | logError : String → Effect
  /-- `self.insertRow(table, values)` (row-level insert, line 47-48). -/
  | insertRow : String → List (String × String) → Effect
  /-- `cursor.copy_from(buffer, table, columns=...)` (bulk load); `none`
  target columns means the call passed no `columns` argument. -/
  | copyFrom : String → List (List Cell) → Option (List String) → Effect
  /-- `self.session.commit()` (line 88). -/
  | commit : Effect
  deriving DecidableEq, Repr

/-- Write events: the actions that put rows into tables. -/
def isWriteEff : Effect → Bool
  | .insertRow _ _ => true
  | .copyFrom _ _ _ => true
  | _ => false

/-- Commit events. -/
def isCommitEff : Effect → Bool
  | .commit => true
  | _ => false

/-- Session-level write events: the `cursor.copy_from` bulk loads, issued
on the session's own DBAPI connection (`self.session.connection()`),
inside the transaction that `session.commit()` (line 88) commits. -/
def isSessionWriteEff : Effect → Bool
  | .copyFrom _ _ _ => true
  | _ => false

/-- Engine-level write events: `insertRow` (lines 47-48) runs
`self.engine.execute(...)`, SQLAlchemy connectionless execution that
borrows a pool connection distinct from the session's and autocommits
the statement on its own. -/
def isEngineWriteEff : Effect → Bool
  | .insertRow _ _ => true
  | _ => false

/-- Durability model of the store: session-level writes (`copy_from`)
are buffered in `pending` until a `session.commit()` event appends the
buffer to `committed`; engine-level writes (`insertRow` via
`engine.execute`) autocommit on their own connection and land in
`committed` immediately, independently of the session commit. -/
structure Store where
  pending : List Effect
  committed : List Effect
  deriving DecidableEq, Repr

/-- Apply one effect to the store. -/
def applyEffect (s : Store) : Effect → Store
  | .commit => ⟨[], s.committed ++ s.pending⟩
  | .insertRow t v => ⟨s.pending, s.committed ++ [.insertRow t v]⟩
  | e => if isSessionWriteEff e then ⟨s.pending ++ [e], s.committed⟩ else s

/-- Run a trace of effects against the store. -/
def runEffects (s : Store) (tr : List Effect) : Store :=
  tr.foldl applyEffect s

/-- Result of one `addDataset` call: `aborted` is the early `return False`
of line 69, `raised` a Python exception escaping the call (e.g.
`pd.read_csv` on a missing file), `ok` the fall-through success return. -/
inductive RunRes where
  | ok : RunRes
  | aborted : RunRes
  | raised : RunRes
  deriving DecidableEq, Repr

/-- Input of one ingestion call: the arguments of `addDataset`, the current
rows (name, uploaded_by) of the `dataset` table, the `Path.is_file` check
result for each of the three files, and each file's parse result (`none`
when `pd.read_csv` would raise: missing or unreadable file). -/
structure IngestInput where
  name : String
  uploader : String
  existing : List (String × String)
  purchaseName : String
  articleName : String
  customerName : String
  purchaseExists : Bool
  articleExists : Bool
  customerExists : Bool
  purchaseFile : Option DataFrame
  articleFile : Option DataFrame
  customerFile : Option DataFrame
  deriving DecidableEq, Repr

/-- `__addDatasetEntry` (lines 94-107): query the `dataset` table for the
name; if present log an error and return false, else insert the row and
return true. -/
def addDatasetEntry (existing : List (String × String)) (name uploader : String) :
    List Effect × Bool :=
  if existing.any (fun r => r.1 = name) then
    ([Effect.logError ("Couldnt add dataset " ++ name ++ ", it already exists")], false)
  else
    ([Effect.insertRow "dataset" [("name", name), ("uploaded_by", uploader)]], true)

/-- `__addMetaDataset` (lines 109-153): reflect, parse the CSV (a raise is
modelled by `none`), check for the `kind_id` column (error + false when
absent), bulk-load the identity frame into table `kind` with no explicit
column list, then for every non-id column in header order bulk-load its
attribute frame into `kind_attribute` with the frame's columns as target
columns; return true. -/
def addMetaDataset (ds : String) (file : Option DataFrame) (kind : String) :
    List Effect × Option Bool :=
  match file with
  | none => ([Effect.reflect], none)
  | some df =>
    if (kind ++ "_id") ∈ df.cols then
      ([Effect.reflect,
        Effect.copyFrom kind (identityFrame df kind ds).rows none]
        ++ (df.cols.filter (fun c => c ≠ kind ++ "_id")).map (fun a =>
             Effect.copyFrom (kind ++ "_attribute") (attributeFrame df kind ds a).rows
               (some (attributeFrame df kind ds a).cols)),
       some true)
    else
      ([Effect.reflect,
        Effect.logError ("Could not find \"" ++ kind ++ "_id\" column in " ++ ds)],
       some false)

/-- `__addPurchasesDataset` (lines 155-193): reflect, parse the CSV
(a raise is modelled by `none`), check the four required columns in the
order of the elif chain (error naming the first missing one + false),
attach `dataset_name`, rename `t_dat` to `timestamp`, deduplicate on the
composite key keeping first occurrences, bulk-load into `purchase` with
the frame's columns as target columns; return true. -/
def addPurchasesDataset (ds : String) (file : Option DataFrame) :
    List Effect × Option Bool :=
  match file with
  | none => ([Effect.reflect], none)
  | some df =>
    match missingPurchaseCol df.cols with
    | some c =>
      ([Effect.reflect,
        Effect.logError ("Could not find \"" ++ c ++ "\" column in " ++ ds)],
       some false)
    | none =>
      ([Effect.reflect,
        Effect.copyFrom "purchase" (purchaseFrame df ds).rows
          (some (purchaseFrame df ds).cols)],
       some true)

/-- The file-existence loop of `addDataset` (lines 72-75): for each of the
three files, in argument order purchase, article, customer, log an error
when `Path(filename).is_file()` is false. Advisory only: no return, no
write. -/
def fileCheckLogs (inp : IngestInput) : List Effect :=
  (if inp.purchaseExists then [] else [Effect.logError ("Could not find " ++ inp.purchaseName)])
    ++ (if inp.articleExists then [] else [Effect.logError ("Could not find " ++ inp.articleName)])
    ++ (if inp.customerExists then [] else [Effect.logError ("Could not find " ++ inp.customerName)])

/-- `addDataset` (lines 59-92): reflect, log, register the dataset row
(early `return False` on failure), check file existence (advisory), load
article metadata then customer metadata (their boolean results are
ignored), load purchases, commit once, log the elapsed-time line. A
loader's `none` result models its `pd.read_csv` raising, which propagates
out of `addDataset` before any later step. -/
def addDataset (inp : IngestInput) : List Effect × RunRes :=
  let pre := [Effect.reflect, Effect.log ("Adding dataset " ++ inp.name)]
  let entry := addDatasetEntry inp.existing inp.name inp.uploader
  if entry.2 then
    let fl := fileCheckLogs inp
    let art := addMetaDataset inp.name inp.articleFile "article"
    match art.2 with
    | none => (pre ++ entry.1 ++ fl ++ art.1, RunRes.raised)
    | some _ =>
      let cust := addMetaDataset inp.name inp.customerFile "customer"
      match cust.2 with
      | none => (pre ++ entry.1 ++ fl ++ art.1 ++ cust.1, RunRes.raised)
      | some _ =>
        let pur := addPurchasesDataset inp.name inp.purchaseFile
        match pur.2 with
        | none => (pre ++ entry.1 ++ fl ++ art.1 ++ cust.1 ++ pur.1, RunRes.raised)
        | some _ =>
          (pre ++ entry.1 ++ fl ++ art.1 ++ cust.1 ++ pur.1
             ++ [Effect.commit, Effect.log ("Added dataset \"" ++ inp.name ++ "\"")],
           RunRes.ok)
  else
    (pre ++ entry.1, RunRes.aborted)

/-- The `sep` argument of the `pd.read_csv` call at line 114 of
`__addMetaDataset`: the literal comma (the source carries a
`todo add support for custom seperator`; the method takes no delimiter
parameter). -/
def metaReadCsvSep : String := ","

/-- The `sep` argument of the `pd.read_csv` call at line 160 of
`__addPurchasesDataset`: the literal comma (same todo; no delimiter
parameter exists). -/
def purchaseReadCsvSep : String := ","

/-- Modelled from the spec: "Parse the CSV with a configurable field
delimiter (default comma)" — the delimiter a spec-conforming parse would
use given the caller's per-file request. -/
def specReadCsvSep (perFileRequest : Option String) : String :=
  perFileRequest.getD ","

/-! Concrete fixtures used by witnesses and counterexamples. -/

/-- A metadata CSV whose `article_id` column holds the same value twice. -/
def dupIdCsv : DataFrame :=
  ⟨["article_id"], [[some "1"], [some "1"]]⟩

/-- A 3-row article metadata CSV with a null `color` cell in row 2. -/
def articleCsv : DataFrame :=
  ⟨["article_id", "color"],
   [[some "1", some "red"], [some "2", none], [some "3", some "blue"]]⟩

/-- A 2-row customer metadata CSV. -/
def customerCsv : DataFrame :=
  ⟨["customer_id", "age"],
   [[some "c1", some "30"], [some "c2", none]]⟩

/-- A metadata CSV with no `article_id` column. -/
def noIdCsv : DataFrame :=
  ⟨["colour", "size"], [[some "red", some "L"]]⟩

/-- A purchase CSV lacking the required `price` column. -/
def noPriceCsv : DataFrame :=
  ⟨["customer_id", "article_id", "t_dat"],
   [[some "c1", some "a1", some "t1"]]⟩

/-- A 5-row purchase CSV in which rows 1 and 3 are exact duplicates
(one duplicated pair), so the composite keys are 4 distinct. -/
def purchaseCsv5 : DataFrame :=
  ⟨["customer_id", "article_id", "price", "t_dat"],
   [[some "c1", some "a1", some "10", some "t1"],
    [some "c2", some "a2", some "20", some "t2"],
    [some "c1", some "a1", some "10", some "t1"],
    [some "c1", some "a2", some "30", some "t1"],
    [some "c2", some "a1", some "40", some "t3"]]⟩

/-- A purchase CSV with an extra `channel` column beyond the four
required ones. -/
def purchaseCsvExtra : DataFrame :=
  ⟨["customer_id", "article_id", "price", "t_dat", "channel"],
   [[some "c1", some "a1", some "10", some "t1", some "web"],
    [some "c2", some "a1", some "20", some "t2", some "store"]]⟩

/-- An ingestion input whose dataset name is already registered. -/
def inpDup : IngestInput :=
  ⟨"dds", "u", [("dds", "v")], "p.csv", "a.csv", "c.csv", true, true, true,
   some purchaseCsv5, some articleCsv, some customerCsv⟩

/-- An ingestion input with a fresh dataset name and three parsable
files; the article file lacks its id column and its `is_file` check
fails, exercising the advisory validation and loader independence. -/
def inpFresh : IngestInput :=
  ⟨"dd", "u", [("other", "v")], "p.csv", "a.csv", "c.csv", true, false, true,
   some purchaseCsv5, some noIdCsv, some customerCsv⟩

/-! Helper lemmas. -/

/-- When the four required purchase columns are all present,
`missingPurchaseCol` reports none missing. -/
lemma missingPurchaseCol_none_iff (cols : List String) :
    missingPurchaseCol cols = none ↔
      "customer_id" ∈ cols ∧ "article_id" ∈ cols ∧ "price" ∈ cols ∧ "t_dat" ∈ cols := by
  unfold missingPurchaseCol
  split_ifs with h1 h2 h3 h4 <;> simp_all [not_not]

/-- The column reported missing by `missingPurchaseCol` is indeed absent. -/
lemma missingPurchaseCol_some_not_mem (cols : List String) (c : String)
    (h : missingPurchaseCol cols = some c) : c ∉ cols := by
  unfold missingPurchaseCol at h
  split_ifs at h with h1 h2 h3 h4 <;> simp_all

/-- Registrar behaviour when the name is free. -/
lemma addDatasetEntry_fresh (existing : List (String × String)) (name uploader : String)
    (h : existing.any (fun r => r.1 = name) = false) :
    addDatasetEntry existing name uploader
      = ([Effect.insertRow "dataset" [("name", name), ("uploaded_by", uploader)]], true) := by
  unfold addDatasetEntry
  rw [h]
  simp

/-- Registrar behaviour when the name is taken. -/
lemma addDatasetEntry_taken (existing : List (String × String)) (name uploader : String)
    (h : existing.any (fun r => r.1 = name) = true) :
    addDatasetEntry existing name uploader
      = ([Effect.logError ("Couldnt add dataset " ++ name ++ ", it already exists")], false) := by
  unfold addDatasetEntry
  rw [h]
  simp

/-- The boolean result of the metadata loader on a parsed frame is the
presence of the id column. -/
lemma addMetaDataset_snd (ds : String) (df : DataFrame) (kind : String) :
    (addMetaDataset ds (some df) kind).2 = some (decide ((kind ++ "_id") ∈ df.cols)) := by
  simp only [addMetaDataset]
  split_ifs with h <;> simp [h]

/-- The boolean result of the purchase loader on a parsed frame is the
absence of a missing required column. -/
lemma addPurchasesDataset_snd (ds : String) (df : DataFrame) :
    (addPurchasesDataset ds (some df)).2
      = some (decide (missingPurchaseCol df.cols = none)) := by
  simp only [addPurchasesDataset]
  cases h : missingPurchaseCol df.cols <;> simp [h]

/-- The metadata loader never commits. -/
lemma addMetaDataset_no_commit (ds : String) (file : Option DataFrame) (kind : String) :
    ((addMetaDataset ds file kind).1.filter isCommitEff) = [] := by
  cases file with
  | none => simp [addMetaDataset, isCommitEff]
  | some df =>
    simp only [addMetaDataset]
    split_ifs with h
    · have h2 : ∀ l : List String, List.filter isCommitEff
          (l.map (fun a => Effect.copyFrom (kind ++ "_attribute") (attributeFrame df kind ds a).rows
              (some (attributeFrame df kind ds a).cols))) = [] := by
        intro l
        induction l with
        | nil => rfl
        | cons x xs ih => simp [isCommitEff, ih]
      simp [isCommitEff, h2]
    · simp [isCommitEff]

/-- The purchase loader never commits. -/
lemma addPurchasesDataset_no_commit (ds : String) (file : Option DataFrame) :
    ((addPurchasesDataset ds file).1.filter isCommitEff) = [] := by
  cases file with
  | none => simp [addPurchasesDataset, isCommitEff]
  | some df =>
    simp only [addPurchasesDataset]
    cases h : missingPurchaseCol df.cols <;> simp [h, isCommitEff]

/-- The advisory file-existence step only logs: no writes, no commit. -/
lemma fileCheckLogs_only_logs (inp : IngestInput) :
    ∀ e ∈ fileCheckLogs inp, isWriteEff e = false ∧ isCommitEff e = false := by
  intro e he
  unfold fileCheckLogs at he
  split_ifs at he <;> simp_all [isWriteEff, isCommitEff] <;>
    (try rcases he with h | h | h) <;> simp_all [isWriteEff, isCommitEff]

/-- A commit-free trace buffers its session writes as pending and makes
exactly its engine writes durable (they autocommit on their own). -/
lemma runEffects_no_commit (tr : List Effect) (h : tr.filter isCommitEff = []) (s : Store) :
    runEffects s tr = ⟨s.pending ++ tr.filter isSessionWriteEff,
                       s.committed ++ tr.filter isEngineWriteEff⟩ := by
  induction tr generalizing s with
  | nil => simp [runEffects]
  | cons e es ih =>
    rw [List.filter_cons] at h
    by_cases hc : isCommitEff e
    · simp [hc] at h
    · simp only [hc, Bool.false_eq_true, if_false] at h
      have : runEffects s (e :: es) = runEffects (applyEffect s e) es := rfl
      rw [this, ih h]
      cases e with
      | commit => simp [isCommitEff] at hc
      | reflect => simp [applyEffect, isSessionWriteEff, isEngineWriteEff, List.filter_cons]
      | log m => simp [applyEffect, isSessionWriteEff, isEngineWriteEff, List.filter_cons]
      | logError m => simp [applyEffect, isSessionWriteEff, isEngineWriteEff, List.filter_cons]
      | insertRow t v => simp [applyEffect, isSessionWriteEff, isEngineWriteEff, List.filter_cons]
      | copyFrom t r c => simp [applyEffect, isSessionWriteEff, isEngineWriteEff, List.filter_cons]

/-- The metadata loader performs no engine-level insert. -/
lemma addMetaDataset_no_insert (ds : String) (file : Option DataFrame) (kind : String) :
    ((addMetaDataset ds file kind).1.filter isEngineWriteEff) = [] := by
  cases file with
  | none => simp [addMetaDataset, isEngineWriteEff]
  | some df =>
    simp only [addMetaDataset]
    split_ifs with h
    · have h2 : ∀ l : List String, List.filter isEngineWriteEff
          (l.map (fun a => Effect.copyFrom (kind ++ "_attribute") (attributeFrame df kind ds a).rows
              (some (attributeFrame df kind ds a).cols))) = [] := by
        intro l
        induction l with
        | nil => rfl
        | cons x xs ih => simp [isEngineWriteEff, ih]
      simp [isEngineWriteEff, h2]
    · simp [isEngineWriteEff]

/-- The purchase loader performs no engine-level insert. -/
lemma addPurchasesDataset_no_insert (ds : String) (file : Option DataFrame) :
    ((addPurchasesDataset ds file).1.filter isEngineWriteEff) = [] := by
  cases file with
  | none => simp [addPurchasesDataset, isEngineWriteEff]
  | some df =>
    simp only [addPurchasesDataset]
    cases h : missingPurchaseCol df.cols <;> simp [h, isEngineWriteEff]

/-- The advisory file-existence step performs no engine-level insert. -/
lemma fileCheckLogs_no_insert (inp : IngestInput) :
    (fileCheckLogs inp).filter isEngineWriteEff = [] := by
  rw [List.filter_eq_nil_iff]
  intro a ha
  unfold fileCheckLogs at ha
  split_ifs at ha <;> simp_all [isEngineWriteEff] <;>
    (try rcases ha with h | h | h) <;> simp_all [isEngineWriteEff]

/-- Deduplication only keeps rows of the original list, in order. -/
lemma dedupBy_sublist (f : List Cell → List Cell) :
    ∀ (rs seen : List (List Cell)), (dedupBy f rs seen).Sublist rs := by
  intro rs
  induction rs with
  | nil => intro seen; simp [dedupBy]
  | cons r rest ih =>
    intro seen
    rw [dedupBy]
    split_ifs with h
    · exact (ih seen).trans (List.sublist_cons_self r rest)
    · exact (ih (f r :: seen)).cons₂ r

/-- The keys of the kept rows are pairwise distinct and avoid `seen`. -/
lemma dedupBy_keys_nodup (f : List Cell → List Cell) :
    ∀ (rs seen : List (List Cell)),
      ((dedupBy f rs seen).map f).Nodup
      ∧ ∀ k ∈ (dedupBy f rs seen).map f, k ∉ seen := by
  intro rs
  induction rs with
  | nil => intro seen; simp [dedupBy]
  | cons r rest ih =>
    intro seen
    rw [dedupBy]
    split_ifs with h
    · exact ih seen
    · obtain ⟨hnd, hns⟩ := ih (f r :: seen)
      constructor
      · rw [List.map_cons, List.nodup_cons]
        exact ⟨fun hmem => (hns (f r) hmem) (List.mem_cons_self _ _), hnd⟩
      · intro k hk
        rw [List.map_cons, List.mem_cons] at hk
        rcases hk with hk | hk
        · subst hk; exact h
        · exact fun hks => (hns k hk) (List.mem_cons_of_mem _ hks)

/-- Every row's key either was already seen or survives deduplication. -/
lemma dedupBy_covers (f : List Cell → List Cell) :
    ∀ (rs seen : List (List Cell)), ∀ r ∈ rs,
      f r ∈ seen ∨ f r ∈ (dedupBy f rs seen).map f := by
  intro rs
  induction rs with
  | nil => intro seen r hr; cases hr
  | cons a rest ih =>
    intro seen r hr
    rw [dedupBy]
    rcases List.mem_cons.mp hr with hr | hr
    · subst hr
      split_ifs with h
      · exact Or.inl h
      · right; rw [List.map_cons]; exact List.mem_cons_self _ _
    · split_ifs with h
      · exact ih seen r hr
      · rcases ih (f a :: seen) r hr with hs | hs
        · rcases List.mem_cons.mp hs with hs | hs
          · right; rw [hs, List.map_cons]; exact List.mem_cons_self _ _
          · exact Or.inl hs
        · right; rw [List.map_cons]; exact List.mem_cons_of_mem _ hs

/-- For a key not yet seen, the surviving row with that key is exactly the
first row of the input with that key. -/
lemma dedupBy_find_first (f : List Cell → List Cell) :
    ∀ (rs seen : List (List Cell)), ∀ k, k ∉ seen →
      (dedupBy f rs seen).find? (fun r => f r = k) = rs.find? (fun r => f r = k) := by
  intro rs
  induction rs with
  | nil => intro seen k _; simp [dedupBy]
  | cons a rest ih =>
    intro seen k hk
    rw [dedupBy]
    split_ifs with h
    · have hne : f a ≠ k := fun he => hk (he ▸ h)
      rw [List.find?_cons_of_neg _ (by simpa using hne)]
      exact ih seen k hk
    · by_cases he : f a = k
      · rw [List.find?_cons_of_pos _ (by simpa using he),
          List.find?_cons_of_pos _ (by simpa using he)]
      · rw [List.find?_cons_of_neg _ (by simpa using he),
          List.find?_cons_of_neg _ (by simpa using he)]
        exact ih (f a :: seen) k (by
          intro hmem
          rcases List.mem_cons.mp hmem with hmem | hmem
          · exact he hmem.symm
          · exact hk hmem)

/-- Length of the rows kept by a `dropna` on a single tracked cell: the
original length minus the number of null cells. -/
lemma length_filter_isSome (g : List Cell → Cell) (rows : List (List Cell)) :
    (rows.filter (fun r => (g r).isSome)).length
      = rows.length - rows.countP (fun r => g r = none) := by
  induction rows with
  | nil => simp
  | cons r rs ih =>
    rw [List.filter_cons, List.countP_cons, List.length_cons]
    by_cases h : (g r).isSome
    · have hnone : ¬ (g r = none) := by
        intro he; rw [he] at h; simp at h
      have hle : rs.countP (fun r => decide (g r = none)) ≤ rs.length :=
        List.countP_le_length _
      simp only [h, if_pos, List.length_cons, ih, hnone, decide_False]
      simp
      omega
    · have hnone : g r = none := by
        cases hg : g r
        · rfl
        · rw [hg] at h; simp at h
      have hle : rs.countP (fun r => decide (g r = none)) ≤ rs.length :=
        List.countP_le_length _
      simp only [ih, hnone, decide_True]
      simp [hnone]
      omega

/-- The coordinator on the success path: fresh name and three parsable
files give the full trace in step order, ending in the single commit. -/
lemma addDataset_fresh (inp : IngestInput) (dfa dfc dfp : DataFrame)
    (hname : inp.existing.any (fun r => r.1 = inp.name) = false)
    (ha : inp.articleFile = some dfa) (hc : inp.customerFile = some dfc)
    (hp : inp.purchaseFile = some dfp) :
    addDataset inp
      = ([Effect.reflect, Effect.log ("Adding dataset " ++ inp.name)]
          ++ [Effect.insertRow "dataset" [("name", inp.name), ("uploaded_by", inp.uploader)]]
          ++ fileCheckLogs inp
          ++ (addMetaDataset inp.name inp.articleFile "article").1
          ++ (addMetaDataset inp.name inp.customerFile "customer").1
          ++ (addPurchasesDataset inp.name inp.purchaseFile).1
          ++ [Effect.commit, Effect.log ("Added dataset \"" ++ inp.name ++ "\"")],
       RunRes.ok) := by
  simp only [addDataset, addDatasetEntry_fresh _ _ _ hname, ha, hc, hp,
    addMetaDataset_snd, addPurchasesDataset_snd]
  simp [List.append_assoc]

/-- The advisory file-existence step never commits. -/
lemma fileCheckLogs_no_commit (inp : IngestInput) :
    (fileCheckLogs inp).filter isCommitEff = [] := by
  rw [List.filter_eq_nil_iff]
  intro a ha
  simpa using (fileCheckLogs_only_logs inp a ha).2

/-- C1: for every dataset name already present in the store's dataset
table, `__addDatasetEntry` logs an error, returns false and inserts no
dataset row; `addDataset` then aborts immediately — its whole trace is the
initial reflect, the "Adding dataset" log and the error log, with no file
validation, no metadata load, no purchase load, no write and no commit —
so running it leaves every table of the store unchanged. -/
theorem C1_existing_name_full_abort (inp : IngestInput)
    (h : inp.existing.any (fun r => r.1 = inp.name) = true) :
    addDatasetEntry inp.existing inp.name inp.uploader
      = ([Effect.logError ("Couldnt add dataset " ++ inp.name ++ ", it already exists")], false)
    ∧ addDataset inp
      = ([Effect.reflect, Effect.log ("Adding dataset " ++ inp.name),
          Effect.logError ("Couldnt add dataset " ++ inp.name ++ ", it already exists")],
         RunRes.aborted)
    ∧ (addDataset inp).1.filter isWriteEff = []
    ∧ (addDataset inp).1.filter isCommitEff = []
    ∧ ∀ s : Store, runEffects s (addDataset inp).1 = s := by
  have he := addDatasetEntry_taken inp.existing inp.name inp.uploader h
  have hd : addDataset inp
      = ([Effect.reflect, Effect.log ("Adding dataset " ++ inp.name),
          Effect.logError ("Couldnt add dataset " ++ inp.name ++ ", it already exists")],
         RunRes.aborted) := by
    simp only [addDataset, he]
    simp
  refine ⟨he, hd, ?_, ?_, ?_⟩
  · rw [hd]; simp [isWriteEff]
  · rw [hd]; simp [isCommitEff]
  · intro s
    rw [hd]
    simp [runEffects, applyEffect, isSessionWriteEff]

/-- C1 witness: the fixture `inpDup` carries an already-registered name
and exhibits the full abort. -/
theorem C1_witness :
    inpDup.existing.any (fun r => r.1 = inpDup.name) = true
    ∧ (addDatasetEntry inpDup.existing inpDup.name inpDup.uploader
        = ([Effect.logError ("Couldnt add dataset " ++ inpDup.name ++ ", it already exists")], false)
      ∧ addDataset inpDup
        = ([Effect.reflect, Effect.log ("Adding dataset " ++ inpDup.name),
            Effect.logError ("Couldnt add dataset " ++ inpDup.name ++ ", it already exists")],
           RunRes.aborted)
      ∧ (addDataset inpDup).1.filter isWriteEff = []
      ∧ (addDataset inpDup).1.filter isCommitEff = []
      ∧ ∀ s : Store, runEffects s (addDataset inpDup).1 = s) :=
  ⟨by decide, C1_existing_name_full_abort inpDup (by decide)⟩

/-- C2 counterexample: the claim fails at two concrete inputs. The
ingestion call `inpDup`, whose dataset name is already registered,
issues no commit at all; and in the successful call `inpFresh` the
registrar's dataset-row insert — issued through `engine.execute`, which
autocommits on its own connection — is already durable after the
commit-free three-effect prefix of the trace, before the
end-of-ingestion commit. So neither is exactly one commit issued on
every call, nor is the single end commit the only way a write of the
ingestion becomes durable. -/
theorem C2_counterexample_registrar_autocommit :
    ((addDataset inpDup).1.filter isCommitEff).length = 0
    ∧ (addDataset inpDup).2 = RunRes.aborted
    ∧ ((addDataset inpFresh).1.take 3).filter isCommitEff = []
    ∧ (runEffects ⟨[], []⟩ ((addDataset inpFresh).1.take 3)).committed
        = [Effect.insertRow "dataset" [("name", "dd"), ("uploaded_by", "u")]] := by
  decide

/-- C2 (amended): for every ingestion call that passes dataset
registration and whose three files parse, exactly one session commit is
issued, as the last store action of `addDataset`, and it covers exactly
the bulk-load writes performed through the store session connection: on
the commit-free prefix of the trace these loads are pending while the
registrar's dataset-row insert — engine-level execution that autocommits
on its own connection — is already durable, and the final commit makes
precisely the pending bulk loads durable, emptying the buffer. Calls
that abort at registration issue no commit at all. -/
theorem C2_amended_commit_covers_session_loads (inp : IngestInput) (dfa dfc dfp : DataFrame)
    (hname : inp.existing.any (fun r => r.1 = inp.name) = false)
    (ha : inp.articleFile = some dfa) (hc : inp.customerFile = some dfc)
    (hp : inp.purchaseFile = some dfp) :
    (addDataset inp).2 = RunRes.ok
    ∧ ((addDataset inp).1.filter isCommitEff).length = 1
    ∧ (∃ pre, (addDataset inp).1
        = pre ++ [Effect.commit, Effect.log ("Added dataset \"" ++ inp.name ++ "\"")]
        ∧ pre.filter isCommitEff = []
        ∧ runEffects ⟨[], []⟩ pre
            = ⟨pre.filter isSessionWriteEff,
               [Effect.insertRow "dataset" [("name", inp.name), ("uploaded_by", inp.uploader)]]⟩)
    ∧ runEffects ⟨[], []⟩ (addDataset inp).1
        = ⟨[], [Effect.insertRow "dataset" [("name", inp.name), ("uploaded_by", inp.uploader)]]
               ++ (addDataset inp).1.filter isSessionWriteEff⟩ := by
  have hd := addDataset_fresh inp dfa dfc dfp hname ha hc hp
  have hpreC : ([Effect.reflect, Effect.log ("Adding dataset " ++ inp.name)]
      ++ [Effect.insertRow "dataset" [("name", inp.name), ("uploaded_by", inp.uploader)]]
      ++ fileCheckLogs inp
      ++ (addMetaDataset inp.name inp.articleFile "article").1
      ++ (addMetaDataset inp.name inp.customerFile "customer").1
      ++ (addPurchasesDataset inp.name inp.purchaseFile).1).filter isCommitEff = [] := by
    simp only [List.filter_append, fileCheckLogs_no_commit, addMetaDataset_no_commit,
      addPurchasesDataset_no_commit]
    simp [isCommitEff]
  have hpreE : ([Effect.reflect, Effect.log ("Adding dataset " ++ inp.name)]
      ++ [Effect.insertRow "dataset" [("name", inp.name), ("uploaded_by", inp.uploader)]]
      ++ fileCheckLogs inp
      ++ (addMetaDataset inp.name inp.articleFile "article").1
      ++ (addMetaDataset inp.name inp.customerFile "customer").1
      ++ (addPurchasesDataset inp.name inp.purchaseFile).1).filter isEngineWriteEff
      = [Effect.insertRow "dataset" [("name", inp.name), ("uploaded_by", inp.uploader)]] := by
    simp only [List.filter_append, fileCheckLogs_no_insert, addMetaDataset_no_insert,
      addPurchasesDataset_no_insert]
    simp [isEngineWriteEff]
  have htr : (addDataset inp).1
      = ([Effect.reflect, Effect.log ("Adding dataset " ++ inp.name)]
          ++ [Effect.insertRow "dataset" [("name", inp.name), ("uploaded_by", inp.uploader)]]
          ++ fileCheckLogs inp
          ++ (addMetaDataset inp.name inp.articleFile "article").1
          ++ (addMetaDataset inp.name inp.customerFile "customer").1
          ++ (addPurchasesDataset inp.name inp.purchaseFile).1)
        ++ [Effect.commit, Effect.log ("Added dataset \"" ++ inp.name ++ "\"")] := by
    rw [hd]
  have hprerun : runEffects ⟨[], []⟩
      ([Effect.reflect, Effect.log ("Adding dataset " ++ inp.name)]
        ++ [Effect.insertRow "dataset" [("name", inp.name), ("uploaded_by", inp.uploader)]]
        ++ fileCheckLogs inp
        ++ (addMetaDataset inp.name inp.articleFile "article").1
        ++ (addMetaDataset inp.name inp.customerFile "customer").1
        ++ (addPurchasesDataset inp.name inp.purchaseFile).1)
      = ⟨([Effect.reflect, Effect.log ("Adding dataset " ++ inp.name)]
          ++ [Effect.insertRow "dataset" [("name", inp.name), ("uploaded_by", inp.uploader)]]
          ++ fileCheckLogs inp
          ++ (addMetaDataset inp.name inp.articleFile "article").1
          ++ (addMetaDataset inp.name inp.customerFile "customer").1
          ++ (addPurchasesDataset inp.name inp.purchaseFile).1).filter isSessionWriteEff,
         [Effect.insertRow "dataset" [("name", inp.name), ("uploaded_by", inp.uploader)]]⟩ := by
    rw [runEffects_no_commit _ hpreC, hpreE]
    simp
  have hsw : (addDataset inp).1.filter isSessionWriteEff
      = ([Effect.reflect, Effect.log ("Adding dataset " ++ inp.name)]
          ++ [Effect.insertRow "dataset" [("name", inp.name), ("uploaded_by", inp.uploader)]]
          ++ fileCheckLogs inp
          ++ (addMetaDataset inp.name inp.articleFile "article").1
          ++ (addMetaDataset inp.name inp.customerFile "customer").1
          ++ (addPurchasesDataset inp.name inp.purchaseFile).1).filter isSessionWriteEff := by
    rw [htr, List.filter_append]
    simp [isSessionWriteEff]
  have hrun : runEffects ⟨[], []⟩ (addDataset inp).1
      = ⟨[], [Effect.insertRow "dataset" [("name", inp.name), ("uploaded_by", inp.uploader)]]
             ++ (addDataset inp).1.filter isSessionWriteEff⟩ := by
    rw [hsw, htr, runEffects, List.foldl_append]
    rw [show List.foldl applyEffect (⟨[], []⟩ : Store) _ = runEffects ⟨[], []⟩ _ from rfl,
      hprerun]
    simp [applyEffect, isSessionWriteEff]
  refine ⟨by rw [hd], ?_, ⟨_, htr, hpreC, hprerun⟩, hrun⟩
  · rw [htr, List.filter_append, hpreC]
    simp [isCommitEff]

/-- C2 witness: a fresh-name ingestion with three parsed files commits
exactly once, at the end; the registrar insert is durable before the
commit, and the commit flushes exactly the pending bulk loads. -/
theorem C2_witness :
    (inpFresh.existing.any (fun r => r.1 = inpFresh.name) = false
      ∧ inpFresh.articleFile = some noIdCsv
      ∧ inpFresh.customerFile = some customerCsv
      ∧ inpFresh.purchaseFile = some purchaseCsv5)
    ∧ ((addDataset inpFresh).2 = RunRes.ok
      ∧ ((addDataset inpFresh).1.filter isCommitEff).length = 1
      ∧ (∃ pre, (addDataset inpFresh).1
          = pre ++ [Effect.commit, Effect.log ("Added dataset \"" ++ inpFresh.name ++ "\"")]
          ∧ pre.filter isCommitEff = []
          ∧ runEffects ⟨[], []⟩ pre
              = ⟨pre.filter isSessionWriteEff,
                 [Effect.insertRow "dataset"
                    [("name", inpFresh.name), ("uploaded_by", inpFresh.uploader)]]⟩)
      ∧ runEffects ⟨[], []⟩ (addDataset inpFresh).1
          = ⟨[], [Effect.insertRow "dataset"
                    [("name", inpFresh.name), ("uploaded_by", inpFresh.uploader)]]
                 ++ (addDataset inpFresh).1.filter isSessionWriteEff⟩) :=
  ⟨⟨by decide, rfl, rfl, rfl⟩,
   C2_amended_commit_covers_session_loads inpFresh noIdCsv customerCsv purchaseCsv5
     (by decide) rfl rfl rfl⟩

/-- C3 counterexample: a metadata CSV whose `article_id` column holds the
value "1" twice gets two identity rows bulk-loaded, not one row per
distinct identity value — `__addMetaDataset` never deduplicates the id
column. -/
theorem C3_counterexample_duplicate_ids_kept :
    (identityFrame dupIdCsv "article" "d").rows.length = 2
    ∧ ((dupIdCsv.rows.map (fun r => getCell dupIdCsv.cols r "article_id")).dedup).length = 1
    ∧ (identityFrame dupIdCsv "article" "d").rows.length
        ≠ ((dupIdCsv.rows.map (fun r => getCell dupIdCsv.cols r "article_id")).dedup).length
    ∧ (identityFrame dupIdCsv "article" "d").rows
        = [[some "1", some "d"], [some "1", some "d"]] := by
  decide

/-- C3 (amended): for every metadata CSV containing the id column, the
identity bulk-load into the kind table contains one row per CSV row — the
row's identity value paired with the dataset name — with duplicates kept:
the loaded id column equals the CSV id column with multiplicity. -/
theorem C3_amended_one_row_per_csv_row (df : DataFrame) (kind ds : String)
    (h : (kind ++ "_id") ∈ df.cols) :
    (∃ rest, (addMetaDataset ds (some df) kind).1
        = Effect.reflect
            :: Effect.copyFrom kind (identityFrame df kind ds).rows none :: rest)
    ∧ (identityFrame df kind ds).rows.length = df.rows.length
    ∧ (identityFrame df kind ds).rows
        = df.rows.map (fun r => [getCell df.cols r (kind ++ "_id"), some ds])
    ∧ (identityFrame df kind ds).rows.map (fun r => r.getD 0 none)
        = df.rows.map (fun r => getCell df.cols r (kind ++ "_id")) := by
  refine ⟨?_, ?_, rfl, ?_⟩
  · refine ⟨(df.cols.filter (fun c => c ≠ kind ++ "_id")).map (fun a =>
      Effect.copyFrom (kind ++ "_attribute") (attributeFrame df kind ds a).rows
        (some (attributeFrame df kind ds a).cols)), ?_⟩
    simp only [addMetaDataset, h, if_pos]
    rfl
  · simp [identityFrame]
  · simp [identityFrame]

/-- C3 witness: the duplicate-id fixture loads both rows. -/
theorem C3_witness :
    ("article" ++ "_id") ∈ dupIdCsv.cols
    ∧ ((∃ rest, (addMetaDataset "d" (some dupIdCsv) "article").1
        = Effect.reflect
            :: Effect.copyFrom "article" (identityFrame dupIdCsv "article" "d").rows none :: rest)
      ∧ (identityFrame dupIdCsv "article" "d").rows.length = dupIdCsv.rows.length
      ∧ (identityFrame dupIdCsv "article" "d").rows
          = dupIdCsv.rows.map (fun r => [getCell dupIdCsv.cols r ("article" ++ "_id"), some "d"])
      ∧ (identityFrame dupIdCsv "article" "d").rows.map (fun r => r.getD 0 none)
          = dupIdCsv.rows.map (fun r => getCell dupIdCsv.cols r ("article" ++ "_id"))) :=
  ⟨by decide, C3_amended_one_row_per_csv_row dupIdCsv "article" "d" (by decide)⟩

/-- C4: for every purchase CSV with the four required columns, the
bulk-loaded frame is the attached frame deduplicated on the composite key
(dataset_name, customer_id, article_id, timestamp): its rows are a
subsequence of the file rows in order, their keys are pairwise distinct,
every file row's key is still represented, and the representative of each
key is exactly the first row of the file with that key — later duplicates
are dropped with no logging effect. -/
theorem C4_purchase_dedup_keeps_first (df : DataFrame) (ds : String)
    (hreq : missingPurchaseCol df.cols = none) :
    addPurchasesDataset ds (some df)
      = ([Effect.reflect,
          Effect.copyFrom "purchase" (purchaseFrame df ds).rows (some (purchaseFrame df ds).cols)],
         some true)
    ∧ (purchaseFrame df ds).rows.Sublist (purchaseAttached df ds).rows
    ∧ ((purchaseFrame df ds).rows.map (purchaseKey (purchaseAttached df ds).cols)).Nodup
    ∧ (∀ r ∈ (purchaseAttached df ds).rows,
        purchaseKey (purchaseAttached df ds).cols r
          ∈ (purchaseFrame df ds).rows.map (purchaseKey (purchaseAttached df ds).cols))
    ∧ (∀ k, (purchaseFrame df ds).rows.find?
          (fun r => purchaseKey (purchaseAttached df ds).cols r = k)
        = (purchaseAttached df ds).rows.find?
          (fun r => purchaseKey (purchaseAttached df ds).cols r = k)) := by
  refine ⟨?_, ?_, ?_, ?_, ?_⟩
  · simp only [addPurchasesDataset, hreq]
  · exact dedupBy_sublist _ _ _
  · exact (dedupBy_keys_nodup _ _ _).1
  · intro r hr
    rcases dedupBy_covers _ _ [] r hr with hs | hs
    · cases hs
    · exact hs
  · intro k
    exact dedupBy_find_first _ _ [] k (by simp)

/-- C4 witness: the 5-row fixture with one duplicated pair loads 4 rows,
the first occurrence of each key. -/
theorem C4_witness :
    missingPurchaseCol purchaseCsv5.cols = none
    ∧ (addPurchasesDataset "d" (some purchaseCsv5)
        = ([Effect.reflect,
            Effect.copyFrom "purchase" (purchaseFrame purchaseCsv5 "d").rows
              (some (purchaseFrame purchaseCsv5 "d").cols)],
           some true)
      ∧ (purchaseFrame purchaseCsv5 "d").rows.Sublist (purchaseAttached purchaseCsv5 "d").rows
      ∧ ((purchaseFrame purchaseCsv5 "d").rows.map
            (purchaseKey (purchaseAttached purchaseCsv5 "d").cols)).Nodup
      ∧ (∀ r ∈ (purchaseAttached purchaseCsv5 "d").rows,
          purchaseKey (purchaseAttached purchaseCsv5 "d").cols r
            ∈ (purchaseFrame purchaseCsv5 "d").rows.map
                (purchaseKey (purchaseAttached purchaseCsv5 "d").cols))
      ∧ (∀ k, (purchaseFrame purchaseCsv5 "d").rows.find?
            (fun r => purchaseKey (purchaseAttached purchaseCsv5 "d").cols r = k)
          = (purchaseAttached purchaseCsv5 "d").rows.find?
            (fun r => purchaseKey (purchaseAttached purchaseCsv5 "d").cols r = k)))
    ∧ purchaseCsv5.rows.length = 5
    ∧ (purchaseFrame purchaseCsv5 "d").rows.length = 4 :=
  ⟨by decide, C4_purchase_dedup_keeps_first purchaseCsv5 "d" (by decide), by decide, by decide⟩

/-- C5: for a metadata CSV whose id column is entirely non-null, the
attribute bulk-load of a non-identity column keeps exactly the rows whose
value cell is non-null — length N minus the number of null value cells —
each loaded row being the entity id, the dataset name, the column name as
attribute, the non-null value and the constant type tag; and this frame is
bulk-loaded into the kind_attribute table by the metadata loader.
Dropping is per attribute: the characterisation holds for each attribute
column independently of the others. -/
theorem C5_attribute_rows_drop_nulls (df : DataFrame) (kind ds attr : String)
    (hid : (kind ++ "_id") ∈ df.cols)
    (hattr : attr ∈ df.cols) (hne : attr ≠ kind ++ "_id")
    (hnn : ∀ r ∈ df.rows, (getCell df.cols r (kind ++ "_id")).isSome = true) :
    (attributeFrame df kind ds attr).rows
      = (df.rows.filter (fun r => (getCell df.cols r attr).isSome)).map
          (fun r => [getCell df.cols r (kind ++ "_id"), some ds, some attr,
                     getCell df.cols r attr, some "0"])
    ∧ (attributeFrame df kind ds attr).rows.length
      = df.rows.length - df.rows.countP (fun r => getCell df.cols r attr = none)
    ∧ Effect.copyFrom (kind ++ "_attribute") (attributeFrame df kind ds attr).rows
        (some [kind ++ "_id", "dataset_name", "attribute", "value", "type"])
        ∈ (addMetaDataset ds (some df) kind).1 := by
  have hmain : (attributeFrame df kind ds attr).rows
      = (df.rows.filter (fun r => (getCell df.cols r attr).isSome)).map
          (fun r => [getCell df.cols r (kind ++ "_id"), some ds, some attr,
                     getCell df.cols r attr, some "0"]) := by
    show ((df.rows.map _).filter _) = _
    rw [List.filter_map]
    congr 1
    apply List.filter_congr
    intro r hr
    have h1 := hnn r hr
    simp [Function.comp, h1]
  refine ⟨hmain, ?_, ?_⟩
  · rw [hmain, List.length_map]
    exact length_filter_isSome (fun r => getCell df.cols r attr) df.rows
  · simp only [addMetaDataset, hid, if_pos]
    apply List.mem_append_right
    apply List.mem_map.mpr
    refine ⟨attr, ?_, rfl⟩
    apply List.mem_filter.mpr
    exact ⟨hattr, by simp [hne]⟩

/-- C5 witness: the 3-row article fixture with one null color cell loads
exactly 2 color attribute rows. -/
theorem C5_witness :
    (("article" ++ "_id") ∈ articleCsv.cols
      ∧ "color" ∈ articleCsv.cols
      ∧ "color" ≠ "article" ++ "_id"
      ∧ ∀ r ∈ articleCsv.rows, (getCell articleCsv.cols r ("article" ++ "_id")).isSome = true)
    ∧ ((attributeFrame articleCsv "article" "d" "color").rows
        = (articleCsv.rows.filter (fun r => (getCell articleCsv.cols r "color").isSome)).map
            (fun r => [getCell articleCsv.cols r ("article" ++ "_id"), some "d", some "color",
                       getCell articleCsv.cols r "color", some "0"])
      ∧ (attributeFrame articleCsv "article" "d" "color").rows.length
        = articleCsv.rows.length
            - articleCsv.rows.countP (fun r => getCell articleCsv.cols r "color" = none)
      ∧ Effect.copyFrom ("article" ++ "_attribute")
          (attributeFrame articleCsv "article" "d" "color").rows
          (some ["article" ++ "_id", "dataset_name", "attribute", "value", "type"])
          ∈ (addMetaDataset "d" (some articleCsv) "article").1)
    ∧ articleCsv.rows.length = 3
    ∧ (attributeFrame articleCsv "article" "d" "color").rows.length = 2 :=
  ⟨⟨by decide, by decide, by decide, by decide⟩,
   C5_attribute_rows_drop_nulls articleCsv "article" "d" "color"
     (by decide) (by decide) (by decide) (by decide),
   by decide, by decide⟩

/-- C6: for a metadata CSV lacking the kind_id column, the metadata
loader logs an error naming the missing column and the dataset, returns
false, and issues no write at all — no identity row and no attribute row
— leaving any store state unchanged. -/
theorem C6_missing_id_no_writes (df : DataFrame) (ds kind : String)
    (h : (kind ++ "_id") ∉ df.cols) :
    addMetaDataset ds (some df) kind
      = ([Effect.reflect,
          Effect.logError ("Could not find \"" ++ kind ++ "_id\" column in " ++ ds)],
         some false)
    ∧ (addMetaDataset ds (some df) kind).1.filter isWriteEff = []
    ∧ ∀ s : Store, runEffects s (addMetaDataset ds (some df) kind).1 = s := by
  have hd : addMetaDataset ds (some df) kind
      = ([Effect.reflect,
          Effect.logError ("Could not find \"" ++ kind ++ "_id\" column in " ++ ds)],
         some false) := by
    simp only [addMetaDataset]
    rw [if_neg h]
  refine ⟨hd, ?_, ?_⟩
  · rw [hd]; simp [isWriteEff]
  · intro s; rw [hd]; simp [runEffects, applyEffect, isSessionWriteEff]

/-- C6 witness: the fixture with no `article_id` column is rejected with
no writes. -/
theorem C6_witness :
    (("article" ++ "_id") ∉ noIdCsv.cols)
    ∧ (addMetaDataset "d" (some noIdCsv) "article"
        = ([Effect.reflect,
            Effect.logError ("Could not find \"" ++ "article" ++ "_id\" column in " ++ "d")],
           some false)
      ∧ (addMetaDataset "d" (some noIdCsv) "article").1.filter isWriteEff = []
      ∧ ∀ s : Store, runEffects s (addMetaDataset "d" (some noIdCsv) "article").1 = s) :=
  ⟨by decide, C6_missing_id_no_writes noIdCsv "d" "article" (by decide)⟩

/-- C7: for a purchase CSV lacking one of the four required columns, the
purchase loader logs which column is missing (the first missing one in
the order of the elif chain, a column genuinely absent from the header),
returns false, and issues no write — no partial purchase load. -/
theorem C7_missing_purchase_col_no_writes (df : DataFrame) (ds c : String)
    (h : missingPurchaseCol df.cols = some c) :
    addPurchasesDataset ds (some df)
      = ([Effect.reflect,
          Effect.logError ("Could not find \"" ++ c ++ "\" column in " ++ ds)],
         some false)
    ∧ c ∉ df.cols
    ∧ (addPurchasesDataset ds (some df)).1.filter isWriteEff = []
    ∧ ∀ s : Store, runEffects s (addPurchasesDataset ds (some df)).1 = s := by
  have hd : addPurchasesDataset ds (some df)
      = ([Effect.reflect,
          Effect.logError ("Could not find \"" ++ c ++ "\" column in " ++ ds)],
         some false) := by
    simp only [addPurchasesDataset, h]
  refine ⟨hd, missingPurchaseCol_some_not_mem df.cols c h, ?_, ?_⟩
  · rw [hd]; simp [isWriteEff]
  · intro s; rw [hd]; simp [runEffects, applyEffect, isSessionWriteEff]

/-- C7 witness: the fixture lacking `price` is rejected with no writes. -/
theorem C7_witness :
    missingPurchaseCol noPriceCsv.cols = some "price"
    ∧ (addPurchasesDataset "d" (some noPriceCsv)
        = ([Effect.reflect,
            Effect.logError ("Could not find \"" ++ "price" ++ "\" column in " ++ "d")],
           some false)
      ∧ "price" ∉ noPriceCsv.cols
      ∧ (addPurchasesDataset "d" (some noPriceCsv)).1.filter isWriteEff = []
      ∧ ∀ s : Store, runEffects s (addPurchasesDataset "d" (some noPriceCsv)).1 = s) :=
  ⟨by decide, C7_missing_purchase_col_no_writes noPriceCsv "d" "price" (by decide)⟩

/-- C8: within one ingestion that passes registration and whose files
parse, the trace is exactly, in order: schema reflection and the opening
log, the registrar step, the advisory file-existence logs (which never
write or commit — missing files only log), the article metadata load, the
customer metadata load, the purchase load, the single commit and the
closing log. The metadata loads are independent: even when the article
load returns false, the customer load trace and the purchase load trace
still occur in full and the commit is still reached. -/
theorem C8_step_order_and_independence (inp : IngestInput) (dfa dfc dfp : DataFrame)
    (hname : inp.existing.any (fun r => r.1 = inp.name) = false)
    (ha : inp.articleFile = some dfa) (hc : inp.customerFile = some dfc)
    (hp : inp.purchaseFile = some dfp) :
    (addDataset inp).1
      = [Effect.reflect, Effect.log ("Adding dataset " ++ inp.name)]
        ++ (addDatasetEntry inp.existing inp.name inp.uploader).1
        ++ fileCheckLogs inp
        ++ (addMetaDataset inp.name inp.articleFile "article").1
        ++ (addMetaDataset inp.name inp.customerFile "customer").1
        ++ (addPurchasesDataset inp.name inp.purchaseFile).1
        ++ [Effect.commit, Effect.log ("Added dataset \"" ++ inp.name ++ "\"")]
    ∧ (addDataset inp).2 = RunRes.ok
    ∧ (∀ e ∈ fileCheckLogs inp, isWriteEff e = false ∧ isCommitEff e = false)
    ∧ ((addMetaDataset inp.name inp.articleFile "article").2 = some false →
        List.IsInfix (addMetaDataset inp.name inp.customerFile "customer").1 (addDataset inp).1
        ∧ List.IsInfix (addPurchasesDataset inp.name inp.purchaseFile).1 (addDataset inp).1
        ∧ Effect.commit ∈ (addDataset inp).1) := by
  have hd := addDataset_fresh inp dfa dfc dfp hname ha hc hp
  have he := addDatasetEntry_fresh inp.existing inp.name inp.uploader hname
  have htr : (addDataset inp).1
      = [Effect.reflect, Effect.log ("Adding dataset " ++ inp.name)]
        ++ (addDatasetEntry inp.existing inp.name inp.uploader).1
        ++ fileCheckLogs inp
        ++ (addMetaDataset inp.name inp.articleFile "article").1
        ++ (addMetaDataset inp.name inp.customerFile "customer").1
        ++ (addPurchasesDataset inp.name inp.purchaseFile).1
        ++ [Effect.commit, Effect.log ("Added dataset \"" ++ inp.name ++ "\"")] := by
    rw [hd, he]
  refine ⟨htr, by rw [hd], fileCheckLogs_only_logs inp, fun _ => ⟨?_, ?_, ?_⟩⟩
  · refine ⟨[Effect.reflect, Effect.log ("Adding dataset " ++ inp.name)]
        ++ (addDatasetEntry inp.existing inp.name inp.uploader).1
        ++ fileCheckLogs inp
        ++ (addMetaDataset inp.name inp.articleFile "article").1,
      (addPurchasesDataset inp.name inp.purchaseFile).1
        ++ [Effect.commit, Effect.log ("Added dataset \"" ++ inp.name ++ "\"")], ?_⟩
    rw [htr]
    simp [List.append_assoc]
  · refine ⟨[Effect.reflect, Effect.log ("Adding dataset " ++ inp.name)]
        ++ (addDatasetEntry inp.existing inp.name inp.uploader).1
        ++ fileCheckLogs inp
        ++ (addMetaDataset inp.name inp.articleFile "article").1
        ++ (addMetaDataset inp.name inp.customerFile "customer").1,
      [Effect.commit, Effect.log ("Added dataset \"" ++ inp.name ++ "\"")], ?_⟩
    rw [htr]
  · rw [htr]
    simp

/-- C8 witness: the fixture `inpFresh`, whose article file lacks its id
column (the article load returns false) and whose article existence check
fails, still runs the customer and purchase loads and commits. -/
theorem C8_witness :
    (inpFresh.existing.any (fun r => r.1 = inpFresh.name) = false
      ∧ inpFresh.articleFile = some noIdCsv
      ∧ inpFresh.customerFile = some customerCsv
      ∧ inpFresh.purchaseFile = some purchaseCsv5
      ∧ (addMetaDataset inpFresh.name inpFresh.articleFile "article").2 = some false
      ∧ inpFresh.articleExists = false)
    ∧ ((addDataset inpFresh).1
        = [Effect.reflect, Effect.log ("Adding dataset " ++ inpFresh.name)]
          ++ (addDatasetEntry inpFresh.existing inpFresh.name inpFresh.uploader).1
          ++ fileCheckLogs inpFresh
          ++ (addMetaDataset inpFresh.name inpFresh.articleFile "article").1
          ++ (addMetaDataset inpFresh.name inpFresh.customerFile "customer").1
          ++ (addPurchasesDataset inpFresh.name inpFresh.purchaseFile).1
          ++ [Effect.commit, Effect.log ("Added dataset \"" ++ inpFresh.name ++ "\"")]
      ∧ (addDataset inpFresh).2 = RunRes.ok
      ∧ (∀ e ∈ fileCheckLogs inpFresh, isWriteEff e = false ∧ isCommitEff e = false)
      ∧ ((addMetaDataset inpFresh.name inpFresh.articleFile "article").2 = some false →
          List.IsInfix (addMetaDataset inpFresh.name inpFresh.customerFile "customer").1
            (addDataset inpFresh).1
          ∧ List.IsInfix (addPurchasesDataset inpFresh.name inpFresh.purchaseFile).1
            (addDataset inpFresh).1
          ∧ Effect.commit ∈ (addDataset inpFresh).1)) :=
  ⟨⟨by decide, rfl, rfl, rfl, by decide, rfl⟩,
   C8_step_order_and_independence inpFresh noIdCsv customerCsv purchaseCsv5 (by decide) rfl rfl rfl⟩

/-- C9 counterexample: the delimiter actually used by both `pd.read_csv`
calls is the literal comma, while a spec-conforming configurable parse
would honour a requested semicolon — so a caller cannot specify a
per-file delimiter. -/
theorem C9_counterexample_sep_not_configurable :
    metaReadCsvSep = "," ∧ purchaseReadCsvSep = ","
    ∧ specReadCsvSep (some ";") = ";"
    ∧ metaReadCsvSep ≠ specReadCsvSep (some ";")
    ∧ purchaseReadCsvSep ≠ specReadCsvSep (some ";") := by
  decide

/-- C9 (amended): every input CSV, metadata and purchase alike, is parsed
with the fixed comma delimiter; no per-file delimiter is configurable
(the source marks custom separators as a todo), and the fixed comma
coincides with the spec's configurable behaviour only in the default,
no-request case. -/
theorem C9_amended_sep_always_comma :
    metaReadCsvSep = "," ∧ purchaseReadCsvSep = ","
    ∧ specReadCsvSep none = metaReadCsvSep
    ∧ specReadCsvSep none = purchaseReadCsvSep := by
  decide

/-- C10: for a purchase CSV with the four required columns (and no
pre-existing `dataset_name` column, which the code would overwrite rather
than append), the bulk-loaded frame's columns are every CSV column in
order — with `t_dat` renamed to `timestamp` — plus the appended
`dataset_name` column; this full column list is passed as the bulk copy's
target columns, so extra CSV columns are loaded into the purchase table
rather than dropped. -/
theorem C10_extra_columns_loaded (df : DataFrame) (ds : String)
    (hreq : missingPurchaseCol df.cols = none)
    (hds : "dataset_name" ∉ df.cols) :
    (purchaseFrame df ds).cols
      = renameCol "t_dat" "timestamp" df.cols ++ ["dataset_name"]
    ∧ addPurchasesDataset ds (some df)
        = ([Effect.reflect,
            Effect.copyFrom "purchase" (purchaseFrame df ds).rows
              (some (purchaseFrame df ds).cols)],
           some true)
    ∧ (∀ c ∈ df.cols, c ≠ "t_dat" → c ∈ (purchaseFrame df ds).cols)
    ∧ "timestamp" ∈ (purchaseFrame df ds).cols
    ∧ "dataset_name" ∈ (purchaseFrame df ds).cols := by
  have hset : (setCol df "dataset_name" (some ds)).cols = df.cols ++ ["dataset_name"] := by
    simp only [setCol]
    rw [if_neg hds]
  have hcols : (purchaseFrame df ds).cols
      = renameCol "t_dat" "timestamp" df.cols ++ ["dataset_name"] := by
    show renameCol "t_dat" "timestamp" (setCol df "dataset_name" (some ds)).cols = _
    rw [hset]
    unfold renameCol
    rw [List.map_append]
    congr 1
  refine ⟨hcols, by simp only [addPurchasesDataset, hreq], ?_, ?_, ?_⟩
  · intro c hcm hct
    rw [hcols]
    apply List.mem_append_left
    exact List.mem_map.mpr ⟨c, hcm, by rw [if_neg hct]⟩
  · rw [hcols]
    apply List.mem_append_left
    have ht : "t_dat" ∈ df.cols := ((missingPurchaseCol_none_iff df.cols).mp hreq).2.2.2
    exact List.mem_map.mpr ⟨"t_dat", ht, by rw [if_pos rfl]⟩
  · rw [hcols]
    apply List.mem_append_right
    simp

/-- C10 witness: the extra `channel` column of the fixture survives into
the loaded frame and the copy target columns. -/
theorem C10_witness :
    (missingPurchaseCol purchaseCsvExtra.cols = none
      ∧ "dataset_name" ∉ purchaseCsvExtra.cols)
    ∧ ((purchaseFrame purchaseCsvExtra "d").cols
        = renameCol "t_dat" "timestamp" purchaseCsvExtra.cols ++ ["dataset_name"]
      ∧ addPurchasesDataset "d" (some purchaseCsvExtra)
          = ([Effect.reflect,
              Effect.copyFrom "purchase" (purchaseFrame purchaseCsvExtra "d").rows
                (some (purchaseFrame purchaseCsvExtra "d").cols)],
             some true)
      ∧ (∀ c ∈ purchaseCsvExtra.cols, c ≠ "t_dat" → c ∈ (purchaseFrame purchaseCsvExtra "d").cols)
      ∧ "timestamp" ∈ (purchaseFrame purchaseCsvExtra "d").cols
      ∧ "dataset_name" ∈ (purchaseFrame purchaseCsvExtra "d").cols)
    ∧ "channel" ∈ (purchaseFrame purchaseCsvExtra "d").cols :=
  ⟨⟨by decide, by decide⟩,
   C10_extra_columns_loaded purchaseCsvExtra "d" (by decide) (by decide),
   by decide⟩

end Ingestion
